import Mathlib

/-!
Shallow embedding of `services/surfaceflinger/BufferLayerConsumer.cpp`
(Android SurfaceFlinger's buffer-layer consumer).

Modelling conventions:
* C++ `float` arithmetic is modelled by exact rational arithmetic (`ℚ`).
  Every constant the transform-matrix code manipulates (0, 0.5, 1, -1, 2)
  is exactly representable in binary floating point, so the structural
  facts proved here (which matrix factors appear, in which order, and
  which branch produces which offset/scale) are float-exact; only the
  final divisions by buffer dimensions round in the C++ code.
* C++ `uint32_t` values are modelled as `Nat` together with an explicit
  `% 2^32` wherever the source can overflow (products, casts).
  `int32_t` rect coordinates are modelled as `Int`; the edge adjustments
  `left += halfdw` etc. stay inside the `int32_t` range whenever the
  input rect is a valid `int32_t` rect (the added amount is at most the
  rect's width), so no wrap is modelled there.
* The 4×4 matrices of `math/mat4.h` use column-major constructor order
  and column-vector application; `Mat4` below stores entries row-major
  (`m03` = row 0, column 3), so the C++ constructor calls are transposed
  when transcribed.  `Mat4.mul` is the standard matrix product, matching
  `TMat44::operator*`.
* Stateful code is explicit state passing on `BLCState`.  Outcomes of
  collaborator calls (EGL, GL, the buffer queue) are supplied by an
  `Env` oracle, and every collaborator invocation is recorded as an
  `Event` so that claims about "never calls the collaborator" and
  "the release-synchronization step runs" are statable.  Paths on which
  the C++ would dereference a null pointer return `none`.
-/

namespace BLC

/-! ## Status codes and platform constants (utils/Errors.h, window.h, PixelFormat.h) -/

def NO_ERROR : Int := 0
def UNKNOWN_ERROR : Int := -2147483648
def NO_INIT : Int := -19
def INVALID_OPERATION : Int := -38
/-- Positive status from IGraphicBufferConsumer: acquire found no pending buffer. -/
def NO_BUFFER_AVAILABLE : Int := 2
def INVALID_BUFFER_SLOT : Int := -1

def NATIVE_WINDOW_TRANSFORM_FLIP_H : Nat := 1
def NATIVE_WINDOW_TRANSFORM_FLIP_V : Nat := 2
def NATIVE_WINDOW_TRANSFORM_ROT_90 : Nat := 4

def NATIVE_WINDOW_SCALING_MODE_FREEZE : Nat := 0
def NATIVE_WINDOW_SCALING_MODE_SCALE_CROP : Nat := 2

def PIXEL_FORMAT_RGBA_8888 : Int := 1
def PIXEL_FORMAT_RGBX_8888 : Int := 2
def PIXEL_FORMAT_RGB_888 : Int := 3
def PIXEL_FORMAT_RGB_565 : Int := 4
def PIXEL_FORMAT_BGRA_8888 : Int := 5
def PIXEL_FORMAT_RGBA_FP16 : Int := 22
def PIXEL_FORMAT_RGBA_1010102 : Int := 43

def HAL_DATASPACE_UNKNOWN : Int := 0

/-- Sentinel for `Fence::NO_FENCE` (a fence wrapping fd -1); fences are
modelled by their descriptor. -/
def NO_FENCE : Int := -1

/-- Sentinel for `FenceTime::NO_FENCE`. -/
def NO_FENCE_TIME : Int := -1

def EGL_NO_DISPLAY : Int := 0
def EGL_NO_CONTEXT : Int := 0

/-! ## ui/Rect.h (collaborator type used throughout the source) -/

structure Rect where
  left : Int
  top : Int
  right : Int
  bottom : Int
deriving DecidableEq

def Rect.width (r : Rect) : Int := r.right - r.left

def Rect.height (r : Rect) : Int := r.bottom - r.top

/-- `Rect::isEmpty`: width or height is not strictly positive. -/
def Rect.isEmpty (r : Rect) : Bool := r.width ≤ 0 || r.height ≤ 0

/-- `Rect::EMPTY_RECT` = Rect(0, 0, 0, 0). -/
def Rect.EMPTY_RECT : Rect := ⟨0, 0, 0, 0⟩

/-! ## Graphic buffers and cached EGL images (payload the claims need) -/

structure GraphicBuffer where
  width : Nat
  height : Nat
  pixelFormat : Int
deriving DecidableEq

/-- `BufferLayerConsumer::EglImage`: we track only the backing buffer; the
EGL handle lifecycle is driven by the `Env` oracle. -/
structure EglImage where
  graphicBuffer : GraphicBuffer
deriving DecidableEq

/-! ## mat4 (math/mat4.h), row-major entry names -/

structure Mat4 where
  m00 : ℚ
  m01 : ℚ
  m02 : ℚ
  m03 : ℚ
  m10 : ℚ
  m11 : ℚ
  m12 : ℚ
  m13 : ℚ
  m20 : ℚ
  m21 : ℚ
  m22 : ℚ
  m23 : ℚ
  m30 : ℚ
  m31 : ℚ
  m32 : ℚ
  m33 : ℚ
deriving DecidableEq

/-- Standard 4×4 matrix product (column-vector convention), as in
`TMat44::operator*`. -/
def Mat4.mul (a b : Mat4) : Mat4 where
  m00 := a.m00 * b.m00 + a.m01 * b.m10 + a.m02 * b.m20 + a.m03 * b.m30
  m01 := a.m00 * b.m01 + a.m01 * b.m11 + a.m02 * b.m21 + a.m03 * b.m31
  m02 := a.m00 * b.m02 + a.m01 * b.m12 + a.m02 * b.m22 + a.m03 * b.m32
  m03 := a.m00 * b.m03 + a.m01 * b.m13 + a.m02 * b.m23 + a.m03 * b.m33
  m10 := a.m10 * b.m00 + a.m11 * b.m10 + a.m12 * b.m20 + a.m13 * b.m30
  m11 := a.m10 * b.m01 + a.m11 * b.m11 + a.m12 * b.m21 + a.m13 * b.m31
  m12 := a.m10 * b.m02 + a.m11 * b.m12 + a.m12 * b.m22 + a.m13 * b.m32
  m13 := a.m10 * b.m03 + a.m11 * b.m13 + a.m12 * b.m23 + a.m13 * b.m33
  m20 := a.m20 * b.m00 + a.m21 * b.m10 + a.m22 * b.m20 + a.m23 * b.m30
  m21 := a.m20 * b.m01 + a.m21 * b.m11 + a.m22 * b.m21 + a.m23 * b.m31
  m22 := a.m20 * b.m02 + a.m21 * b.m12 + a.m22 * b.m22 + a.m23 * b.m32
  m23 := a.m20 * b.m03 + a.m21 * b.m13 + a.m22 * b.m23 + a.m23 * b.m33
  m30 := a.m30 * b.m00 + a.m31 * b.m10 + a.m32 * b.m20 + a.m33 * b.m30
  m31 := a.m30 * b.m01 + a.m31 * b.m11 + a.m32 * b.m21 + a.m33 * b.m31
  m32 := a.m30 * b.m02 + a.m31 * b.m12 + a.m32 * b.m22 + a.m33 * b.m32
  m33 := a.m30 * b.m03 + a.m31 * b.m13 + a.m32 * b.m23 + a.m33 * b.m33

/-- `static const mat4 mtxIdentity;` (default-constructed = identity). -/
def mtxIdentity : Mat4 := ⟨1, 0, 0, 0, 0, 1, 0, 0, 0, 0, 1, 0, 0, 0, 0, 1⟩

/-- `mat4 mtxFlipH(-1, 0, 0, 0, 0, 1, 0, 0, 0, 0, 1, 0, 1, 0, 0, 1)`
(column-major in the source; transposed here). -/
def mtxFlipH : Mat4 := ⟨-1, 0, 0, 1, 0, 1, 0, 0, 0, 0, 1, 0, 0, 0, 0, 1⟩

/-- `mat4 mtxFlipV(1, 0, 0, 0, 0, -1, 0, 0, 0, 0, 1, 0, 0, 1, 0, 1)`
(column-major in the source; transposed here). -/
def mtxFlipV : Mat4 := ⟨1, 0, 0, 0, 0, -1, 0, 1, 0, 0, 1, 0, 0, 0, 0, 1⟩

/-- `mat4 mtxRot90(0, 1, 0, 0, -1, 0, 0, 0, 0, 0, 1, 0, 1, 0, 0, 1)`
(column-major in the source; transposed here). -/
def mtxRot90 : Mat4 := ⟨0, -1, 0, 1, 1, 0, 0, 0, 0, 0, 1, 0, 0, 0, 0, 1⟩

/-! ## computeTransformMatrix (lines 424-497) -/

/-- Truthiness of `transform & mask` in the C++ conditions. -/
def tbit (transform mask : Nat) : Bool := transform &&& mask != 0

/-- Orientation stage of `computeTransformMatrix` (lines 432-441): the
running transform starts at identity and each set bit appends its matrix
on the right (`xform *= mtx` is `xform = xform * mtx` in math/mat4.h). -/
def codeOrientation (transform : Nat) : Mat4 :=
  let xform := mtxIdentity
  let xform := if tbit transform NATIVE_WINDOW_TRANSFORM_FLIP_H then
    Mat4.mul xform mtxFlipH else xform
  let xform := if tbit transform NATIVE_WINDOW_TRANSFORM_FLIP_V then
    Mat4.mul xform mtxFlipV else xform
  let xform := if tbit transform NATIVE_WINDOW_TRANSFORM_ROT_90 then
    Mat4.mul xform mtxRot90 else xform
  xform

/-- Edge-shrink amount (lines 447-474): 0 without filtering; with
filtering, half a texel for the formats known to have no chroma
subsampling, a full texel otherwise. -/
def shrinkAmountFor (filtering : Bool) (format : Int) : ℚ :=
  if filtering then
    if format = PIXEL_FORMAT_RGBA_8888 ∨ format = PIXEL_FORMAT_RGBX_8888 ∨
       format = PIXEL_FORMAT_RGBA_FP16 ∨ format = PIXEL_FORMAT_RGBA_1010102 ∨
       format = PIXEL_FORMAT_RGB_888 ∨ format = PIXEL_FORMAT_RGB_565 ∨
       format = PIXEL_FORMAT_BGRA_8888 then 1/2
    else 1
  else 0

/-- Horizontal offset/scale of the crop stage (lines 477-480): adjusted
from (0, 1) only when the crop is narrower than the buffer. -/
def cropStageX (cropRect : Rect) (bufferWidth shrinkAmount : ℚ) : ℚ × ℚ :=
  if (cropRect.width : ℚ) < bufferWidth then
    (((cropRect.left : ℚ) + shrinkAmount) / bufferWidth,
     ((cropRect.width : ℚ) - 2 * shrinkAmount) / bufferWidth)
  else (0, 1)

/-- Vertical offset/scale of the crop stage (lines 481-484), measured
from the bottom of the buffer. -/
def cropStageY (cropRect : Rect) (bufferHeight shrinkAmount : ℚ) : ℚ × ℚ :=
  if (cropRect.height : ℚ) < bufferHeight then
    ((bufferHeight - (cropRect.bottom : ℚ) + shrinkAmount) / bufferHeight,
     ((cropRect.height : ℚ) - 2 * shrinkAmount) / bufferHeight)
  else (0, 1)

/-- `mat4 crop(sx, 0, 0, 0, 0, sy, 0, 0, 0, 0, 1, 0, tx, ty, 0, 1)`
(line 486; column-major in the source, transposed here). -/
def cropMatrix (tx ty sx sy : ℚ) : Mat4 :=
  ⟨sx, 0, 0, tx, 0, sy, 0, ty, 0, 0, 1, 0, 0, 0, 0, 1⟩

/-- `BufferLayerConsumer::computeTransformMatrix` (lines 424-497):
orientation stage, then (for a non-empty crop) the crop matrix
left-multiplied on, then an unconditional final vertical flip
left-multiplied last. -/
def computeTransformMatrix (buf : GraphicBuffer) (cropRect : Rect)
    (transform : Nat) (filtering : Bool) : Mat4 :=
  let xform := codeOrientation transform
  let xform :=
    if !cropRect.isEmpty then
      let shrinkAmount := shrinkAmountFor filtering buf.pixelFormat
      let px := cropStageX cropRect (buf.width : ℚ) shrinkAmount
      let py := cropStageY cropRect (buf.height : ℚ) shrinkAmount
      Mat4.mul (cropMatrix px.1 py.1 px.2 py.2) xform
    else xform
  Mat4.mul mtxFlipV xform

/-- Orientation stage exactly as claim C1 words it: start from identity
and left-multiply flip-H, then flip-V, then rot-90, in that order, per
set bit.  Written from the claim, to be compared with `codeOrientation`. -/
def claimedOrientation (transform : Nat) : Mat4 :=
  let xform := mtxIdentity
  let xform := if tbit transform NATIVE_WINDOW_TRANSFORM_FLIP_H then
    Mat4.mul mtxFlipH xform else xform
  let xform := if tbit transform NATIVE_WINDOW_TRANSFORM_FLIP_V then
    Mat4.mul mtxFlipV xform else xform
  let xform := if tbit transform NATIVE_WINDOW_TRANSFORM_ROT_90 then
    Mat4.mul mtxRot90 xform else xform
  xform

/-- Full pipeline exactly as claim C1 words it: the claimed orientation
stage, then the crop matrix left-multiplied for a non-empty crop, then
the final vertical flip left-multiplied last. -/
def claimedTransformMatrix (buf : GraphicBuffer) (cropRect : Rect)
    (transform : Nat) (filtering : Bool) : Mat4 :=
  let xform := claimedOrientation transform
  let xform :=
    if !cropRect.isEmpty then
      let shrinkAmount := shrinkAmountFor filtering buf.pixelFormat
      let px := cropStageX cropRect (buf.width : ℚ) shrinkAmount
      let py := cropStageY cropRect (buf.height : ℚ) shrinkAmount
      Mat4.mul (cropMatrix px.1 py.1 px.2 py.2) xform
    else xform
  Mat4.mul mtxFlipV xform

/-- Orientation stage as the amended claim words it: left-multiply
rot-90, then flip-V, then flip-H, in that order, per set bit (the
original claim's order reversed). -/
def amendedOrientation (transform : Nat) : Mat4 :=
  let xform := mtxIdentity
  let xform := if tbit transform NATIVE_WINDOW_TRANSFORM_ROT_90 then
    Mat4.mul mtxRot90 xform else xform
  let xform := if tbit transform NATIVE_WINDOW_TRANSFORM_FLIP_V then
    Mat4.mul mtxFlipV xform else xform
  let xform := if tbit transform NATIVE_WINDOW_TRANSFORM_FLIP_H then
    Mat4.mul mtxFlipH xform else xform
  xform

/-- Full pipeline as the amended claim words it. -/
def amendedTransformMatrix (buf : GraphicBuffer) (cropRect : Rect)
    (transform : Nat) (filtering : Bool) : Mat4 :=
  let xform := amendedOrientation transform
  let xform :=
    if !cropRect.isEmpty then
      let shrinkAmount := shrinkAmountFor filtering buf.pixelFormat
      let px := cropStageX cropRect (buf.width : ℚ) shrinkAmount
      let py := cropStageY cropRect (buf.height : ℚ) shrinkAmount
      Mat4.mul (cropMatrix px.1 py.1 px.2 py.2) xform
    else xform
  Mat4.mul mtxFlipV xform

/-! ## scaleDownCrop (lines 499-537) -/

def U32 : Nat := 4294967296

/-- `static_cast<uint32_t>` of an `int32_t` value. -/
def u32ofInt (x : Int) : Nat := (x % (U32 : Int)).toNat

/-- `BufferLayerConsumer::scaleDownCrop` (lines 499-537).  All `uint32_t`
products are reduced `% 2^32` as the hardware does; `uint32_t` division
is `Nat` division. -/
def scaleDownCrop (crop : Rect) (bufferWidth bufferHeight : Nat) : Rect :=
  let newWidth0 := u32ofInt crop.width
  let newHeight0 := u32ofInt crop.height
  let p1 := (newWidth0 * bufferHeight) % U32
  let p2 := (newHeight0 * bufferWidth) % U32
  let newWidth := if p1 > p2 then p2 / bufferHeight else newWidth0
  let newHeight := if p1 < p2 then p1 / bufferWidth else newHeight0
  let currentWidth := newWidth0
  let currentHeight := newHeight0
  if newWidth < currentWidth then
    let dw := currentWidth - newWidth
    let halfdw := dw / 2
    { crop with left := crop.left + halfdw, right := crop.right - (dw - halfdw) }
  else if newHeight < currentHeight then
    let dh := currentHeight - newHeight
    let halfdh := dh / 2
    { crop with top := crop.top + halfdh, bottom := crop.bottom - (dh - halfdh) }
  else crop

/-- Aspect ratios agree up to the floor rounding of one integer
division: w/h matches bw/bh within one rounding unit on one side. -/
def aspectWithinRounding (w h bw bh : Nat) : Prop :=
  (w * bh ≤ h * bw ∧ h * bw < w * bh + bh) ∨
  (h * bw ≤ w * bh ∧ w * bh < h * bw + bw)

instance (w h bw bh : Nat) : Decidable (aspectWithinRounding w h bw bh) := by
  unfold aspectWithinRounding; infer_instance

/-! ## Stateful model of the consumer -/

/-- `gui/BufferItem.h` fields the source reads. -/
structure BufferItem where
  slot : Int
  graphicBuffer : Option GraphicBuffer
  crop : Rect
  transform : Nat
  scalingMode : Nat
  timestamp : Int
  dataSpace : Int
  fence : Int
  fenceTime : Int
  frameNumber : Nat
deriving DecidableEq

/-- Mutable fields of `BufferLayerConsumer` (header member list; the
`mAbandoned` flag is inherited from `ConsumerBase`).  `eglSlots` returns
over every slot index to keep the model total. -/
structure BLCState where
  currentTexture : Int
  currentTextureImage : Option EglImage
  currentCrop : Rect
  currentTransform : Nat
  currentScalingMode : Nat
  currentTimestamp : Int
  currentDataSpace : Int
  currentFence : Int
  currentFenceTime : Int
  currentFrameNumber : Nat
  defaultWidth : Nat
  defaultHeight : Nat
  filteringEnabled : Bool
  texName : Nat
  eglDisplay : Int
  eglContext : Int
  currentTransformMatrix : Mat4
  abandoned : Bool
  eglSlots : Int → Option EglImage

/-- Collaborator invocations the code can make; `isQueueCall` marks the
buffer-queue collaborator. -/
inductive Event where
  | acquireBuffer
  | releaseBuffer (slot : Int)
  | setDefaultSizeQ (w h : Nat)
  | createImage (slot : Int)
  | syncForRelease
  | bindTexture (texName : Nat)
deriving DecidableEq

def Event.isQueueCall : Event → Bool
  | .acquireBuffer => true
  | .releaseBuffer _ => true
  | .setDefaultSizeQ _ _ => true
  | _ => false

/-- Oracle for the outcomes of calls into EGL/GL and the buffer queue. -/
structure Env where
  dpy : Int
  ctx : Int
  acquire : Except Int BufferItem
  createImageOk : Bool
  syncStatus : Int
  releaseOldStatus : Int
  createImageCurrentOk : Bool
  fenceWaitStatus : Int
  setDefaultSizeStatus : Int
  hasEglAndroidImageCrop : Bool

/-- `isEglImageCroppable` (line 104): crop extension present and the
crop's origin at (0,0). -/
def isEglImageCroppable (hasCropExt : Bool) (crop : Rect) : Bool :=
  hasCropExt && (crop.left == 0 && crop.top == 0)

/-- `computeCurrentTransformMatrixLocked` (lines 411-422).  When the
current image is null the source passes a null buffer pointer on to
`computeTransformMatrix`, which only reads it in the non-empty-crop
branch; the model substitutes a zero-sized buffer for that pointer. -/
def computeCurrentTransformMatrixLocked (hasCropExt : Bool) (s : BLCState) : BLCState :=
  let buf : GraphicBuffer :=
    match s.currentTextureImage with
    | some img => img.graphicBuffer
    | none => ⟨0, 0, 0⟩
  let cropArg :=
    if isEglImageCroppable hasCropExt s.currentCrop then Rect.EMPTY_RECT
    else s.currentCrop
  { s with currentTransformMatrix :=
      computeTransformMatrix buf cropArg s.currentTransform s.filteringEnabled }

/-- `checkAndUpdateEglStateLocked` (lines 318-342): adopt the caller's
display/context on first use, then require them to match. -/
def checkAndUpdateEglStateLocked (s : BLCState) (dpy ctx : Int) : Int × BLCState :=
  let s1 := if s.eglDisplay = EGL_NO_DISPLAY then { s with eglDisplay := dpy } else s
  let s2 := if s1.eglContext = EGL_NO_CONTEXT then { s1 with eglContext := ctx } else s1
  let status :=
    if s2.eglDisplay ≠ dpy ∨ dpy = EGL_NO_DISPLAY then INVALID_OPERATION
    else if s2.eglContext ≠ ctx ∨ ctx = EGL_NO_CONTEXT then INVALID_OPERATION
    else NO_ERROR
  (status, s2)

/-- Deferred-release record (`PendingRelease`). -/
structure PendingRelease where
  currentTexture : Int
  graphicBuffer : GraphicBuffer
  isPending : Bool
deriving DecidableEq

/-- `updateAndReleaseLocked` (lines 206-287).  Returns `none` where the
source would dereference a null `EglImage`.  The event list records
collaborator calls in program order; `usePending` is "pendingRelease ≠
nullptr". -/
def updateAndReleaseLocked (env : Env) (s0 : BLCState) (item : BufferItem)
    (usePending : Bool) :
    Option (Int × BLCState × List Event × Option PendingRelease) :=
  let slot := item.slot
  let r1 := checkAndUpdateEglStateLocked s0 env.dpy env.ctx
  if r1.1 ≠ NO_ERROR then
    some (r1.1, r1.2, [.releaseBuffer slot], none)
  else
    let s1 := r1.2
    match s1.eglSlots slot with
    | none => none
    | some img =>
      if !env.createImageOk then
        some (UNKNOWN_ERROR, s1, [.createImage slot, .releaseBuffer slot], none)
      else
        let syncEvs : List Event :=
          if slot ≠ s1.currentTexture then [.syncForRelease] else []
        if slot ≠ s1.currentTexture ∧ env.syncStatus ≠ NO_ERROR then
          some (env.syncStatus, s1,
                [.createImage slot] ++ syncEvs ++ [.releaseBuffer slot], none)
        else
          -- release of the old buffer (lines 255-270)
          match (if s1.currentTexture ≠ INVALID_BUFFER_SLOT then
                match s1.currentTextureImage with
                | none => none
                | some oldImg =>
                  if usePending then
                    some ((NO_ERROR : Int), ([] : List Event),
                          some (PendingRelease.mk s1.currentTexture
                            oldImg.graphicBuffer true))
                  else
                    some (env.releaseOldStatus,
                          [Event.releaseBuffer s1.currentTexture],
                          (none : Option PendingRelease))
              else some ((NO_ERROR : Int), ([] : List Event),
                         (none : Option PendingRelease))) with
          | none => none
          | some (relStatus, relEvs, pending) =>
            let err := if relStatus < NO_ERROR then relStatus else NO_ERROR
            let s2 := { s1 with
              currentTexture := slot,
              currentTextureImage := some img,
              currentCrop := item.crop,
              currentTransform := item.transform,
              currentScalingMode := item.scalingMode,
              currentTimestamp := item.timestamp,
              currentDataSpace := item.dataSpace,
              currentFence := item.fence,
              currentFenceTime := item.fenceTime,
              currentFrameNumber := item.frameNumber }
            let s3 := computeCurrentTransformMatrixLocked env.hasEglAndroidImageCrop s2
            some (err, s3, [.createImage slot] ++ syncEvs ++ relEvs, pending)

/-- State after the commit block of `updateAndReleaseLocked` (lines
272-284) applied to a state `s1`: the new binding fields plus the
recomputed transform matrix. -/
def committedState (env : Env) (s1 : BLCState) (item : BufferItem)
    (img : EglImage) : BLCState :=
  computeCurrentTransformMatrixLocked env.hasEglAndroidImageCrop
    { s1 with
        currentTexture := item.slot, currentTextureImage := some img,
        currentCrop := item.crop, currentTransform := item.transform,
        currentScalingMode := item.scalingMode, currentTimestamp := item.timestamp,
        currentDataSpace := item.dataSpace, currentFence := item.fence,
        currentFenceTime := item.fenceTime, currentFrameNumber := item.frameNumber }

/-- `bindTextureImageLocked` (lines 289-316): bind the texture name, fail
with NO_INIT when nothing was ever bound, ensure the current image and
wait on the incoming fence (outcomes from the oracle). -/
def bindTextureImageLocked (env : Env) (s : BLCState) :
    Option (Int × BLCState × List Event) :=
  if s.eglDisplay = EGL_NO_DISPLAY then some (INVALID_OPERATION, s, [])
  else
    let evs : List Event := [.bindTexture s.texName]
    if s.currentTexture = INVALID_BUFFER_SLOT ∧ s.currentTextureImage = none then
      some (NO_INIT, s, evs)
    else
      match s.currentTextureImage with
      | none => none
      | some _ =>
        if !env.createImageCurrentOk then
          some (UNKNOWN_ERROR, s, evs ++ [.createImage s.currentTexture])
        else
          some (env.fenceWaitStatus, s, evs ++ [.createImage s.currentTexture])

/-- `acquireBufferLocked` (lines 188-204): forward to the queue, then
replace the slot's cached image when a fresh buffer arrived. -/
def acquireBufferLocked (env : Env) (s : BLCState) :
    Except Int BufferItem × BLCState × List Event :=
  match env.acquire with
  | .error e => (.error e, s, [.acquireBuffer])
  | .ok item =>
    let s1 := match item.graphicBuffer with
      | some gb =>
        { s with eglSlots := fun i => if i = item.slot then some ⟨gb⟩ else s.eglSlots i }
      | none => s
    (.ok item, s1, [.acquireBuffer])

/-- `updateTexImage` (lines 142-186). -/
def updateTexImage (env : Env) (s0 : BLCState) :
    Option (Int × BLCState × List Event) :=
  if s0.abandoned then some (NO_INIT, s0, [])
  else
    let r1 := checkAndUpdateEglStateLocked s0 env.dpy env.ctx
    if r1.1 ≠ NO_ERROR then some (r1.1, r1.2, [])
    else
      match acquireBufferLocked env r1.2 with
      | (.error e, s2, evA) =>
        if e = NO_BUFFER_AVAILABLE then
          some (NO_ERROR, s2, evA ++ [.bindTexture s2.texName])
        else some (e, s2, evA)
      | (.ok item, s2, evA) =>
        match updateAndReleaseLocked env s2 item false with
        | none => none
        | some (err, s3, evU, _) =>
          if err ≠ NO_ERROR then
            some (err, s3, evA ++ evU ++ [.bindTexture s3.texName])
          else
            match bindTextureImageLocked env s3 with
            | none => none
            | some (errB, s4, evB) => some (errB, s4, evA ++ evU ++ evB)

/-! ## Accessors and small mutators (lines 131-140, 388-409, 539-592) -/

def setDefaultBufferSize (env : Env) (s : BLCState) (w h : Nat) :
    Int × BLCState × List Event :=
  if s.abandoned then (NO_INIT, s, [])
  else (env.setDefaultSizeStatus,
        { s with defaultWidth := w, defaultHeight := h },
        [.setDefaultSizeQ w h])

def getTransformMatrix (s : BLCState) : Mat4 := s.currentTransformMatrix

def setFilteringEnabled (hasCropExt : Bool) (s : BLCState) (enabled : Bool) :
    BLCState × List Event :=
  if s.abandoned then (s, [])
  else
    let needsRecompute := s.filteringEnabled ≠ enabled
    let s1 := { s with filteringEnabled := enabled }
    if needsRecompute ∧ s1.currentTextureImage ≠ none then
      (computeCurrentTransformMatrixLocked hasCropExt s1, [])
    else (s1, [])

def getTimestamp (s : BLCState) : Int := s.currentTimestamp

def getCurrentDataSpace (s : BLCState) : Int := s.currentDataSpace

def getFrameNumber (s : BLCState) : Nat := s.currentFrameNumber

/-- `getCurrentBuffer` (lines 557-565): writes the slot to the out
parameter and returns the buffer of the current image, or null. -/
def getCurrentBuffer (s : BLCState) : Option GraphicBuffer × Int :=
  ((s.currentTextureImage.map EglImage.graphicBuffer), s.currentTexture)

/-- `getCurrentCrop` (lines 567-572). -/
def getCurrentCrop (s : BLCState) : Rect :=
  if s.currentScalingMode = NATIVE_WINDOW_SCALING_MODE_SCALE_CROP then
    scaleDownCrop s.currentCrop s.defaultWidth s.defaultHeight
  else s.currentCrop

def getCurrentTransform (s : BLCState) : Nat := s.currentTransform

def getCurrentScalingMode (s : BLCState) : Nat := s.currentScalingMode

def getCurrentFence (s : BLCState) : Int := s.currentFence

def getCurrentFenceTime (s : BLCState) : Int := s.currentFenceTime

/-- Constructor state (lines 108-129); `mAbandoned` starts false in
`ConsumerBase`, `mCurrentFenceTime` is `FenceTime::NO_FENCE` from the
header's member initializer. -/
def initialState (tex : Nat) : BLCState where
  currentTexture := INVALID_BUFFER_SLOT
  currentTextureImage := none
  currentCrop := Rect.EMPTY_RECT
  currentTransform := 0
  currentScalingMode := NATIVE_WINDOW_SCALING_MODE_FREEZE
  currentTimestamp := 0
  currentDataSpace := HAL_DATASPACE_UNKNOWN
  currentFence := NO_FENCE
  currentFenceTime := NO_FENCE_TIME
  currentFrameNumber := 0
  defaultWidth := 1
  defaultHeight := 1
  filteringEnabled := true
  texName := tex
  eglDisplay := EGL_NO_DISPLAY
  eglContext := EGL_NO_CONTEXT
  currentTransformMatrix := mtxIdentity
  abandoned := false
  eglSlots := fun _ => none

/-! ## Concrete sample states and environments (used by witnesses) -/

/-- An abandoned consumer holding a non-zero timestamp snapshot. -/
def abandonedSample : BLCState :=
  { initialState 7 with abandoned := true, currentTimestamp := 42 }

/-- Benign environment: valid display/context, empty queue, all
collaborator calls succeed. -/
def envDefault : Env where
  dpy := 1
  ctx := 1
  acquire := .error NO_BUFFER_AVAILABLE
  createImageOk := true
  syncStatus := 0
  releaseOldStatus := 0
  createImageCurrentOk := true
  fenceWaitStatus := 0
  setDefaultSizeStatus := 0
  hasEglAndroidImageCrop := false

/-- A consumer that has already bound slot 0 and cached an image in
slot 1, with an adopted display/context pair. -/
def boundSample : BLCState :=
  { initialState 7 with
      currentTexture := 0,
      currentTextureImage := some ⟨⟨8, 8, 1⟩⟩,
      eglDisplay := 1,
      eglContext := 1,
      eglSlots := fun i => if i = 1 then some ⟨⟨16, 16, 5⟩⟩ else none }

/-- A freshly acquired item occupying slot 1. -/
def itemSample : BufferItem where
  slot := 1
  graphicBuffer := some ⟨16, 16, 5⟩
  crop := ⟨0, 0, 8, 8⟩
  transform := 4
  scalingMode := 0
  timestamp := 5
  dataSpace := 0
  fence := 3
  fenceTime := 3
  frameNumber := 9

/-- Environment in which releasing the old buffer fails with -22
(BAD_VALUE) while everything else succeeds. -/
def envReleaseFails : Env := { envDefault with releaseOldStatus := -22 }

/-- Environment in which the release-synchronization step fails. -/
def envSyncFails : Env := { envDefault with syncStatus := -5 }

end BLC

namespace BLC

/-! ## Helper lemmas -/

/-- Left multiplication by the identity matrix. -/
theorem Mat4.id_mul (a : Mat4) : Mat4.mul mtxIdentity a = a := by
  cases a
  simp [Mat4.mul, mtxIdentity]

set_option maxHeartbeats 2000000 in
/-- The orientation stage the source computes (right-multiplication in
order flip-H, flip-V, rot-90) agrees with left-multiplication in the
reversed order rot-90, flip-V, flip-H. -/
theorem codeOrientation_eq_amended (t : Nat) :
    codeOrientation t = amendedOrientation t := by
  unfold codeOrientation amendedOrientation
  cases h1 : tbit t NATIVE_WINDOW_TRANSFORM_FLIP_H <;>
    cases h2 : tbit t NATIVE_WINDOW_TRANSFORM_FLIP_V <;>
      cases h3 : tbit t NATIVE_WINDOW_TRANSFORM_ROT_90 <;>
        simp only [if_true, if_false, ite_true, ite_false] <;>
        · simp only [Mat4.mul, mtxIdentity, mtxFlipH, mtxFlipV, mtxRot90,
            Mat4.mk.injEq]
          norm_num

/-- `checkAndUpdateEglStateLocked` only ever touches the display/context
fields of the state. -/
theorem checkAndUpdateEglStateLocked_snd (s : BLCState) (dpy ctx : Int) :
    ∃ d e, (checkAndUpdateEglStateLocked s dpy ctx).2 =
      { s with eglDisplay := d, eglContext := e } := by
  unfold checkAndUpdateEglStateLocked
  dsimp only
  split <;> split <;> exact ⟨_, _, rfl⟩

/-! ## C1 -/

/-- Claim C1 as stated is false: with transform = FLIP_H | ROT_90 (= 5)
and an empty crop, building the orientation stage by LEFT-multiplying
flip-H then rot-90 yields a different matrix than the source, which
right-multiplies them onto the accumulator (`xform *= mtx`). -/
theorem computeTransformMatrix_claimed_order_cex :
    computeTransformMatrix ⟨1, 1, 1⟩ Rect.EMPTY_RECT 5 false ≠
      claimedTransformMatrix ⟨1, 1, 1⟩ Rect.EMPTY_RECT 5 false := by
  have hb1 : tbit 5 NATIVE_WINDOW_TRANSFORM_FLIP_H = true := by decide
  have hb2 : tbit 5 NATIVE_WINDOW_TRANSFORM_FLIP_V = false := by decide
  have hb3 : tbit 5 NATIVE_WINDOW_TRANSFORM_ROT_90 = true := by decide
  have hcrop : (!Rect.EMPTY_RECT.isEmpty) = false := by decide
  intro h
  have h03 := congrArg Mat4.m03 h
  simp only [computeTransformMatrix, claimedTransformMatrix, codeOrientation,
    claimedOrientation, hb1, hb2, hb3, hcrop, if_true, if_false, ite_true,
    ite_false, Mat4.mul, mtxIdentity, mtxFlipH, mtxFlipV, mtxRot90] at h03
  norm_num at h03

/-- C1 (amended): the transform matrix computer starts from the identity
and multiplies the flip-H, flip-V and rot-90 matrices onto the RIGHT of
the accumulator in that order per set bit (equivalently: left-multiplies
them in the reversed order rot-90, flip-V, flip-H); then, if the crop is
non-empty, left-multiplies the crop matrix; and finally, unconditionally,
left-multiplies a vertical-flip matrix last, after crop and orientation. -/
theorem computeTransformMatrix_amended_order (buf : GraphicBuffer)
    (cropRect : Rect) (t : Nat) (f : Bool) :
    computeTransformMatrix buf cropRect t f =
      amendedTransformMatrix buf cropRect t f := by
  unfold computeTransformMatrix amendedTransformMatrix
  rw [codeOrientation_eq_amended]

/-! ## C2 -/

/-- C2: for a non-empty crop, the edge-shrink amount is 0 without
filtering, 1/2 texel with filtering for the seven formats without chroma
subsampling, 1 texel with filtering for every other format; and an
axis's crop offset/scale move away from (0, 1) only if the crop is
strictly smaller than the buffer on that axis. -/
theorem shrink_amount_and_axis_adjustment (buf : GraphicBuffer)
    (cropRect : Rect) (f : Bool) (hne : cropRect.isEmpty = false) :
    (f = false → shrinkAmountFor f buf.pixelFormat = 0) ∧
    (f = true →
      buf.pixelFormat ∈ [PIXEL_FORMAT_RGBA_8888, PIXEL_FORMAT_RGBX_8888,
        PIXEL_FORMAT_RGBA_FP16, PIXEL_FORMAT_RGBA_1010102,
        PIXEL_FORMAT_RGB_888, PIXEL_FORMAT_RGB_565, PIXEL_FORMAT_BGRA_8888] →
      shrinkAmountFor f buf.pixelFormat = 1/2) ∧
    (f = true →
      buf.pixelFormat ∉ [PIXEL_FORMAT_RGBA_8888, PIXEL_FORMAT_RGBX_8888,
        PIXEL_FORMAT_RGBA_FP16, PIXEL_FORMAT_RGBA_1010102,
        PIXEL_FORMAT_RGB_888, PIXEL_FORMAT_RGB_565, PIXEL_FORMAT_BGRA_8888] →
      shrinkAmountFor f buf.pixelFormat = 1) ∧
    (cropStageX cropRect (buf.width : ℚ) (shrinkAmountFor f buf.pixelFormat) ≠
        (0, 1) → (cropRect.width : ℚ) < (buf.width : ℚ)) ∧
    (cropStageY cropRect (buf.height : ℚ) (shrinkAmountFor f buf.pixelFormat) ≠
        (0, 1) → (cropRect.height : ℚ) < (buf.height : ℚ)) := by
  refine ⟨?_, ?_, ?_, ?_, ?_⟩
  · intro hf; simp [shrinkAmountFor, hf]
  · intro hf hmem
    simp only [List.mem_cons, List.not_mem_nil, or_false] at hmem
    simp [shrinkAmountFor, hf, hmem]
  · intro hf hmem
    simp only [List.mem_cons, List.not_mem_nil, or_false] at hmem
    push_neg at hmem
    obtain ⟨n1, n2, n3, n4, n5, n6, n7⟩ := hmem
    simp [shrinkAmountFor, hf, n1, n2, n3, n4, n5, n6, n7]
  · intro hx
    by_cases hc : (cropRect.width : ℚ) < (buf.width : ℚ)
    · exact hc
    · exact absurd (by simp [cropStageX, hc]) hx
  · intro hy
    by_cases hc : (cropRect.height : ℚ) < (buf.height : ℚ)
    · exact hc
    · exact absurd (by simp [cropStageY, hc]) hy

/-- Witness for C2 at filtering = true, RGBA-8888, crop (0,0,4,4). -/
theorem shrink_amount_and_axis_adjustment_w :
    shrinkAmountFor true (1 : Int) = 1/2 :=
  (shrink_amount_and_axis_adjustment ⟨8, 8, 1⟩ ⟨0, 0, 4, 4⟩ true
    (by decide)).2.1 rfl (by decide)

/-! ## C8 -/

/-- C8: when the crop rect equals the full buffer bounds, the crop stage
is (offset 0, scale 1) on both axes for every filtering value and every
transform, the crop matrix is the identity, and the whole pipeline
degenerates to final-flip times orientation. -/
theorem full_buffer_crop_identity (buf : GraphicBuffer) (t : Nat) (f : Bool)
    (hw : 0 < buf.width) (hh : 0 < buf.height) :
    cropStageX ⟨0, 0, (buf.width : Int), (buf.height : Int)⟩ (buf.width : ℚ)
        (shrinkAmountFor f buf.pixelFormat) = (0, 1) ∧
    cropStageY ⟨0, 0, (buf.width : Int), (buf.height : Int)⟩ (buf.height : ℚ)
        (shrinkAmountFor f buf.pixelFormat) = (0, 1) ∧
    cropMatrix 0 0 1 1 = mtxIdentity ∧
    computeTransformMatrix buf ⟨0, 0, (buf.width : Int), (buf.height : Int)⟩ t f =
      Mat4.mul mtxFlipV (codeOrientation t) := by
  have hwq : ¬ ((Rect.width ⟨0, 0, (buf.width : Int), (buf.height : Int)⟩ : ℚ) <
      (buf.width : ℚ)) := by
    simp [Rect.width]
  have hhq : ¬ ((Rect.height ⟨0, 0, (buf.width : Int), (buf.height : Int)⟩ : ℚ) <
      (buf.height : ℚ)) := by
    simp [Rect.height]
  have hx : cropStageX ⟨0, 0, (buf.width : Int), (buf.height : Int)⟩ (buf.width : ℚ)
      (shrinkAmountFor f buf.pixelFormat) = (0, 1) := by
    simp [cropStageX, hwq]
  have hy : cropStageY ⟨0, 0, (buf.width : Int), (buf.height : Int)⟩ (buf.height : ℚ)
      (shrinkAmountFor f buf.pixelFormat) = (0, 1) := by
    simp [cropStageY, hhq]
  have hne : (!Rect.isEmpty ⟨0, 0, (buf.width : Int), (buf.height : Int)⟩) = true := by
    simp [Rect.isEmpty, Rect.width, Rect.height]
    refine ⟨?_, ?_⟩ <;> omega
  refine ⟨hx, hy, rfl, ?_⟩
  unfold computeTransformMatrix
  simp only [hne, if_true, ite_true, hx, hy]
  rw [show cropMatrix 0 0 1 1 = mtxIdentity from rfl]
  rw [Mat4.id_mul]

/-- Witness for C8 at a 4×3 buffer, transform 5, filtering on. -/
theorem full_buffer_crop_identity_w :
    cropStageX ⟨0, 0, 4, 3⟩ (4 : ℚ) (shrinkAmountFor true 1) = (0, 1) :=
  (full_buffer_crop_identity ⟨4, 3, 1⟩ 5 true (by decide) (by decide)).1

/-! ## C9 -/

/-- C9: `getCurrentCrop` returns the stored crop unchanged unless the
scaling mode is SCALE_CROP, in which case it returns `scaleDownCrop` of
the stored crop with the default width/height as target; the stored crop
field itself is read-only here (the accessor is a pure function of the
state). -/
theorem getCurrentCrop_characterization (s : BLCState) :
    (s.currentScalingMode = NATIVE_WINDOW_SCALING_MODE_SCALE_CROP →
      getCurrentCrop s = scaleDownCrop s.currentCrop s.defaultWidth s.defaultHeight) ∧
    (s.currentScalingMode ≠ NATIVE_WINDOW_SCALING_MODE_SCALE_CROP →
      getCurrentCrop s = s.currentCrop) := by
  constructor <;> intro h <;> simp [getCurrentCrop, h]

/-- Witness for C9 on a SCALE_CROP state. -/
theorem getCurrentCrop_characterization_w :
    getCurrentCrop { initialState 0 with
        currentScalingMode := NATIVE_WINDOW_SCALING_MODE_SCALE_CROP,
        currentCrop := ⟨0, 0, 100, 50⟩, defaultWidth := 50, defaultHeight := 50 } =
      scaleDownCrop ⟨0, 0, 100, 50⟩ 50 50 :=
  (getCurrentCrop_characterization _).1 rfl

/-! ## C10 -/

/-- C10: after construction the binding is the fixed empty state: null
buffer at the invalid slot, identity transform matrix, zero transform
bits, empty crop, no-fence sentinel, frame number zero. -/
theorem initial_binding_empty (tex : Nat) :
    getCurrentBuffer (initialState tex) = (none, INVALID_BUFFER_SLOT) ∧
    getTransformMatrix (initialState tex) = mtxIdentity ∧
    getCurrentTransform (initialState tex) = 0 ∧
    getCurrentCrop (initialState tex) = Rect.EMPTY_RECT ∧
    getCurrentFence (initialState tex) = NO_FENCE ∧
    getFrameNumber (initialState tex) = 0 := by
  refine ⟨rfl, rfl, rfl, ?_, rfl, rfl⟩
  simp [getCurrentCrop, initialState, NATIVE_WINDOW_SCALING_MODE_FREEZE,
    NATIVE_WINDOW_SCALING_MODE_SCALE_CROP]

/-! ## C3 -/

/-- Claim C3 as stated is false: on an abandoned consumer, the accessor
`getTimestamp` (a public operation, cited by the claim) does not return
NO_INIT; it returns the stored snapshot value (42 here). -/
theorem abandoned_accessor_not_noinit :
    getTimestamp abandonedSample = 42 ∧ getTimestamp abandonedSample ≠ NO_INIT := by
  decide

/-- C3 (amended): once abandoned, the status-returning operations of
this file (updateTexImage, setDefaultBufferSize) return NO_INIT without
any collaborator call, setFilteringEnabled returns without effect or
collaborator call, and accessors return the stored snapshot (never
touching the queue collaborator). -/
theorem abandoned_ops_noinit_no_queue_calls (env : Env) (s : BLCState)
    (w h : Nat) (ext b : Bool) (hab : s.abandoned = true) :
    updateTexImage env s = some (NO_INIT, s, []) ∧
    setDefaultBufferSize env s w h = (NO_INIT, s, []) ∧
    setFilteringEnabled ext s b = (s, []) ∧
    getTimestamp s = s.currentTimestamp ∧
    getFrameNumber s = s.currentFrameNumber ∧
    getCurrentTransform s = s.currentTransform := by
  refine ⟨?_, ?_, ?_, rfl, rfl, rfl⟩ <;>
    simp [updateTexImage, setDefaultBufferSize, setFilteringEnabled, hab]

/-- Witness for C3 (amended) on the abandoned sample state. -/
theorem abandoned_ops_noinit_no_queue_calls_w :
    updateTexImage envDefault abandonedSample = some (NO_INIT, abandonedSample, []) :=
  (abandoned_ops_noinit_no_queue_calls envDefault abandonedSample 0 0 false false
    (by decide)).1

/-! ## C6 -/

/-- C6: when acquire reports NO_BUFFER_AVAILABLE, updateTexImage returns
NO_ERROR, every current-state field is unchanged, and the previously
bound texture name is re-bound. -/
theorem no_buffer_available_is_success (env : Env) (s : BLCState)
    (hab : s.abandoned = false)
    (hegl : (checkAndUpdateEglStateLocked s env.dpy env.ctx).1 = NO_ERROR)
    (hacq : env.acquire = Except.error NO_BUFFER_AVAILABLE) :
    ∃ s2, updateTexImage env s =
        some (NO_ERROR, s2, [Event.acquireBuffer, Event.bindTexture s.texName]) ∧
      s2.currentTexture = s.currentTexture ∧
      s2.currentTextureImage = s.currentTextureImage ∧
      s2.currentCrop = s.currentCrop ∧
      s2.currentTransform = s.currentTransform ∧
      s2.currentScalingMode = s.currentScalingMode ∧
      s2.currentTimestamp = s.currentTimestamp ∧
      s2.currentDataSpace = s.currentDataSpace ∧
      s2.currentFence = s.currentFence ∧
      s2.currentFenceTime = s.currentFenceTime ∧
      s2.currentFrameNumber = s.currentFrameNumber ∧
      s2.currentTransformMatrix = s.currentTransformMatrix := by
  obtain ⟨d, e, hde⟩ := checkAndUpdateEglStateLocked_snd s env.dpy env.ctx
  refine ⟨(checkAndUpdateEglStateLocked s env.dpy env.ctx).2,
    ?_, ?_, ?_, ?_, ?_, ?_, ?_, ?_, ?_, ?_, ?_, ?_⟩ <;>
    simp [updateTexImage, acquireBufferLocked, hab, hegl, hacq, hde]

/-- Witness for C6 on the bound sample state with an empty queue. -/
theorem no_buffer_available_is_success_w :
    ∃ s2, updateTexImage envDefault boundSample =
        some (NO_ERROR, s2,
          [Event.acquireBuffer, Event.bindTexture boundSample.texName]) ∧
      s2.currentTexture = boundSample.currentTexture ∧
      s2.currentTextureImage = boundSample.currentTextureImage ∧
      s2.currentCrop = boundSample.currentCrop ∧
      s2.currentTransform = boundSample.currentTransform ∧
      s2.currentScalingMode = boundSample.currentScalingMode ∧
      s2.currentTimestamp = boundSample.currentTimestamp ∧
      s2.currentDataSpace = boundSample.currentDataSpace ∧
      s2.currentFence = boundSample.currentFence ∧
      s2.currentFenceTime = boundSample.currentFenceTime ∧
      s2.currentFrameNumber = boundSample.currentFrameNumber ∧
      s2.currentTransformMatrix = boundSample.currentTransformMatrix :=
  no_buffer_available_is_success envDefault boundSample (by decide) (by decide) rfl

/-! ## C4 -/

/-- C4: if releasing the previously bound buffer fails during the commit
step, the new state (slot, image reference, crop, transform, scaling
mode, timestamp, dataspace, fence, fence-time, frame number) is still
committed, the transform matrix is recomputed from the committed values,
and the call returns the release error. -/
theorem commit_despite_release_failure (env : Env) (s : BLCState)
    (item : BufferItem) (img oldImg : EglImage)
    (hegl : (checkAndUpdateEglStateLocked s env.dpy env.ctx).1 = NO_ERROR)
    (himg : s.eglSlots item.slot = some img)
    (hcr : env.createImageOk = true)
    (hsync : env.syncStatus = NO_ERROR)
    (hcur : s.currentTexture ≠ INVALID_BUFFER_SLOT)
    (hcurimg : s.currentTextureImage = some oldImg)
    (hrel : env.releaseOldStatus < NO_ERROR) :
    ∃ s3 evs, updateAndReleaseLocked env s item false =
        some (env.releaseOldStatus, s3, evs, none) ∧
      Event.releaseBuffer s.currentTexture ∈ evs ∧
      s3.currentTexture = item.slot ∧
      s3.currentTextureImage = some img ∧
      s3.currentCrop = item.crop ∧
      s3.currentTransform = item.transform ∧
      s3.currentScalingMode = item.scalingMode ∧
      s3.currentTimestamp = item.timestamp ∧
      s3.currentDataSpace = item.dataSpace ∧
      s3.currentFence = item.fence ∧
      s3.currentFenceTime = item.fenceTime ∧
      s3.currentFrameNumber = item.frameNumber ∧
      s3.currentTransformMatrix = computeTransformMatrix img.graphicBuffer
        (if isEglImageCroppable env.hasEglAndroidImageCrop item.crop then
          Rect.EMPTY_RECT else item.crop)
        item.transform s.filteringEnabled := by
  obtain ⟨d, e, hde⟩ := checkAndUpdateEglStateLocked_snd s env.dpy env.ctx
  refine ⟨computeCurrentTransformMatrixLocked env.hasEglAndroidImageCrop
      { (checkAndUpdateEglStateLocked s env.dpy env.ctx).2 with
          currentTexture := item.slot, currentTextureImage := some img,
          currentCrop := item.crop, currentTransform := item.transform,
          currentScalingMode := item.scalingMode, currentTimestamp := item.timestamp,
          currentDataSpace := item.dataSpace, currentFence := item.fence,
          currentFenceTime := item.fenceTime, currentFrameNumber := item.frameNumber },
    [Event.createImage item.slot] ++
      (if item.slot ≠ s.currentTexture then [Event.syncForRelease] else []) ++
      [Event.releaseBuffer s.currentTexture],
    ?_, ?_, ?_, ?_, ?_, ?_, ?_, ?_, ?_, ?_, ?_, ?_, ?_⟩ <;>
    simp [updateAndReleaseLocked, computeCurrentTransformMatrixLocked,
      hegl, hde, himg, hcr, hsync, hcur, hcurimg, hrel]

/-- Witness for C4: old slot 0 bound, new item in slot 1, release of the
old buffer fails with -22, commit still happens. -/
theorem commit_despite_release_failure_w :
    ∃ s3 evs, updateAndReleaseLocked envReleaseFails boundSample itemSample false =
        some (envReleaseFails.releaseOldStatus, s3, evs, none) ∧
      Event.releaseBuffer boundSample.currentTexture ∈ evs ∧
      s3.currentTexture = itemSample.slot ∧
      s3.currentTextureImage = some ⟨⟨16, 16, 5⟩⟩ ∧
      s3.currentCrop = itemSample.crop ∧
      s3.currentTransform = itemSample.transform ∧
      s3.currentScalingMode = itemSample.scalingMode ∧
      s3.currentTimestamp = itemSample.timestamp ∧
      s3.currentDataSpace = itemSample.dataSpace ∧
      s3.currentFence = itemSample.fence ∧
      s3.currentFenceTime = itemSample.fenceTime ∧
      s3.currentFrameNumber = itemSample.frameNumber ∧
      s3.currentTransformMatrix =
        computeTransformMatrix (EglImage.graphicBuffer ⟨⟨16, 16, 5⟩⟩)
          (if isEglImageCroppable envReleaseFails.hasEglAndroidImageCrop
              itemSample.crop then Rect.EMPTY_RECT else itemSample.crop)
          itemSample.transform boundSample.filteringEnabled :=
  commit_despite_release_failure envReleaseFails boundSample itemSample
    ⟨⟨16, 16, 5⟩⟩ ⟨⟨8, 8, 1⟩⟩ (by decide) (by decide) rfl rfl
    (by decide) (by decide) (by decide)

/-! ## C5 -/

/-- C5: the release-synchronization step runs exactly when the newly
acquired slot differs from the currently bound slot; and if that step
fails, the newly acquired buffer is released back to the queue and the
call aborts with every field of the current binding unchanged. -/
theorem sync_step_iff_slot_change (env : Env) (s : BLCState)
    (item : BufferItem) (img : EglImage)
    (hegl : (checkAndUpdateEglStateLocked s env.dpy env.ctx).1 = NO_ERROR)
    (himg : s.eglSlots item.slot = some img)
    (hcr : env.createImageOk = true)
    (hwf : s.currentTexture ≠ INVALID_BUFFER_SLOT →
      ∃ oi, s.currentTextureImage = some oi) :
    ∃ r s3 evs p, updateAndReleaseLocked env s item false = some (r, s3, evs, p) ∧
      (Event.syncForRelease ∈ evs ↔ item.slot ≠ s.currentTexture) ∧
      (item.slot ≠ s.currentTexture → env.syncStatus ≠ NO_ERROR →
        r = env.syncStatus ∧ p = none ∧
        Event.releaseBuffer item.slot ∈ evs ∧
        s3.currentTexture = s.currentTexture ∧
        s3.currentTextureImage = s.currentTextureImage ∧
        s3.currentCrop = s.currentCrop ∧
        s3.currentTransform = s.currentTransform ∧
        s3.currentScalingMode = s.currentScalingMode ∧
        s3.currentTimestamp = s.currentTimestamp ∧
        s3.currentDataSpace = s.currentDataSpace ∧
        s3.currentFence = s.currentFence ∧
        s3.currentFenceTime = s.currentFenceTime ∧
        s3.currentFrameNumber = s.currentFrameNumber ∧
        s3.currentTransformMatrix = s.currentTransformMatrix) := by
  obtain ⟨d, e, hde⟩ := checkAndUpdateEglStateLocked_snd s env.dpy env.ctx
  by_cases hslot : item.slot = s.currentTexture
  · -- same slot: no sync step; commit path
    by_cases hcur : s.currentTexture = INVALID_BUFFER_SLOT
    · have himg2 : s.eglSlots INVALID_BUFFER_SLOT = some img := by
        rw [← hcur, ← hslot]; exact himg
      refine ⟨NO_ERROR,
        committedState env (checkAndUpdateEglStateLocked s env.dpy env.ctx).2 item img,
        [Event.createImage item.slot], none, ?_, ?_, ?_⟩
      · simp [updateAndReleaseLocked, committedState, hegl, hde, himg, himg2,
          hcr, hslot, hcur]
      · simp [hslot]
      · intro hne; exact absurd hslot hne
    · obtain ⟨oi, hoi⟩ := hwf hcur
      have himg2 : s.eglSlots s.currentTexture = some img := by
        rw [← hslot]; exact himg
      refine ⟨if env.releaseOldStatus < NO_ERROR then env.releaseOldStatus
          else NO_ERROR,
        committedState env (checkAndUpdateEglStateLocked s env.dpy env.ctx).2 item img,
        [Event.createImage item.slot] ++ [] ++ [Event.releaseBuffer s.currentTexture],
        none, ?_, ?_, ?_⟩
      · simp [updateAndReleaseLocked, committedState, hegl, hde, himg, himg2,
          hcr, hslot, hcur, hoi]
      · simp [hslot]
      · intro hne; exact absurd hslot hne
  · by_cases hss : env.syncStatus = NO_ERROR
    · -- slot change, sync succeeds: sync event present, commit proceeds
      by_cases hcur : s.currentTexture = INVALID_BUFFER_SLOT
      · have hslot2 : ¬ item.slot = INVALID_BUFFER_SLOT := by
          rw [← hcur]; exact hslot
        refine ⟨NO_ERROR,
          committedState env (checkAndUpdateEglStateLocked s env.dpy env.ctx).2 item img,
          [Event.createImage item.slot] ++ [Event.syncForRelease] ++ [], none,
          ?_, ?_, ?_⟩
        · simp [updateAndReleaseLocked, committedState, hegl, hde, himg, hcr,
            hslot, hslot2, hcur, hss]
        · simp [hslot]
        · intro _ hne; exact absurd hss hne
      · obtain ⟨oi, hoi⟩ := hwf hcur
        refine ⟨if env.releaseOldStatus < NO_ERROR then env.releaseOldStatus
            else NO_ERROR,
          committedState env (checkAndUpdateEglStateLocked s env.dpy env.ctx).2 item img,
          [Event.createImage item.slot] ++ [Event.syncForRelease] ++
            [Event.releaseBuffer s.currentTexture], none, ?_, ?_, ?_⟩
        · simp [updateAndReleaseLocked, committedState, hegl, hde, himg, hcr,
            hslot, hcur, hoi, hss]
        · simp [hslot]
        · intro _ hne; exact absurd hss hne
    · -- slot change, sync fails: abort, release the new slot, state intact
      refine ⟨env.syncStatus, (checkAndUpdateEglStateLocked s env.dpy env.ctx).2,
        [Event.createImage item.slot] ++ [Event.syncForRelease] ++
          [Event.releaseBuffer item.slot], none, ?_, ?_, ?_⟩
      · simp [updateAndReleaseLocked, hegl, hde, himg, hcr, hslot, hss]
      · simp [hslot]
      · intro _ _
        refine ⟨rfl, rfl, by simp, ?_⟩
        rw [hde]
        exact ⟨rfl, rfl, rfl, rfl, rfl, rfl, rfl, rfl, rfl, rfl, rfl⟩

/-- Witness for C5: slot changes from 0 to 1 and the sync step fails. -/
theorem sync_step_iff_slot_change_w :
    ∃ r s3 evs p,
      updateAndReleaseLocked envSyncFails boundSample itemSample false =
        some (r, s3, evs, p) ∧
      (Event.syncForRelease ∈ evs ↔ itemSample.slot ≠ boundSample.currentTexture) ∧
      (itemSample.slot ≠ boundSample.currentTexture →
        envSyncFails.syncStatus ≠ NO_ERROR →
        r = envSyncFails.syncStatus ∧ p = none ∧
        Event.releaseBuffer itemSample.slot ∈ evs ∧
        s3.currentTexture = boundSample.currentTexture ∧
        s3.currentTextureImage = boundSample.currentTextureImage ∧
        s3.currentCrop = boundSample.currentCrop ∧
        s3.currentTransform = boundSample.currentTransform ∧
        s3.currentScalingMode = boundSample.currentScalingMode ∧
        s3.currentTimestamp = boundSample.currentTimestamp ∧
        s3.currentDataSpace = boundSample.currentDataSpace ∧
        s3.currentFence = boundSample.currentFence ∧
        s3.currentFenceTime = boundSample.currentFenceTime ∧
        s3.currentFrameNumber = boundSample.currentFrameNumber ∧
        s3.currentTransformMatrix = boundSample.currentTransformMatrix) :=
  sync_step_iff_slot_change envSyncFails boundSample itemSample ⟨⟨16, 16, 5⟩⟩
    (by decide) (by decide) rfl (fun _ => ⟨⟨⟨8, 8, 1⟩⟩, rfl⟩)

/-! ## C7 -/

/-- `static_cast<uint32_t>` is the identity on in-range nonnegative values. -/
theorem u32ofInt_eq (x : Int) (h0 : 0 ≤ x) (h1 : x < (U32 : Int)) :
    u32ofInt x = x.toNat := by
  unfold u32ofInt
  rw [Int.emod_eq_of_lt h0 h1]

/-- Floor-division sandwich: `a/b*b ≤ a < a/b*b + b`. -/
theorem div_mul_sandwich (a b : Nat) (hb : 0 < b) :
    a / b * b ≤ a ∧ a < a / b * b + b := by
  have h1 := Nat.div_add_mod a b
  have h2 := Nat.mod_lt a hb
  rw [Nat.mul_comm] at h1
  omega

/-- Claim C7 as stated is false: with crop (0,0,131072,65536) and target
dimensions 1×65536, the `uint32_t` product width·targetHeight = 2^33
overflows to 0.  The crop is oversized in WIDTH relative to the target
aspect ratio (131072·65536 > 65536·1 in exact arithmetic), yet the code
shrinks the HEIGHT — to zero — leaving the width untouched, and the
output aspect ratio (131072:0) is not within integer rounding of the
target's (1:65536). -/
theorem scaleDownCrop_overflow_cex :
    scaleDownCrop ⟨0, 0, 131072, 65536⟩ 1 65536 = ⟨0, 32768, 131072, 32768⟩ ∧
    131072 * 65536 > 65536 * 1 ∧
    (Rect.height (⟨0, 32768, 131072, 32768⟩ : Rect) = 0 ∧
      Rect.width (⟨0, 32768, 131072, 32768⟩ : Rect) = 131072) ∧
    ¬ aspectWithinRounding 131072 0 1 65536 := by
  refine ⟨by decide, by decide, ⟨by decide, by decide⟩, ?_⟩
  unfold aspectWithinRounding
  decide

/-- C7 (amended): provided the crop rect is valid (nonnegative width and
height) and the two `uint32_t` products width·targetHeight and
height·targetWidth do not overflow 2^32 (and the target dimensions are
positive, as the code divides by them), the scale-to-crop helper shrinks
at most one axis — the one oversized relative to the target aspect
ratio —, the output is fully contained in the input crop, its aspect
ratio matches the target's within integer rounding, and a shrink of
delta pixels moves the leading edge by floor(delta/2) and the trailing
edge by delta - floor(delta/2). -/
theorem scaleDownCrop_spec (crop : Rect) (bw bh : Nat)
    (h0w : 0 ≤ crop.width) (h0h : 0 ≤ crop.height)
    (hbw : 0 < bw) (hbh : 0 < bh)
    (hW : crop.width.toNat * bh < U32) (hH : crop.height.toNat * bw < U32) :
    ∃ out, scaleDownCrop crop bw bh = out ∧
      (crop.left ≤ out.left ∧ out.right ≤ crop.right ∧
        crop.top ≤ out.top ∧ out.bottom ≤ crop.bottom) ∧
      (crop.width.toNat * bh = crop.height.toNat * bw → out = crop) ∧
      (crop.height.toNat * bw < crop.width.toNat * bh →
        out.top = crop.top ∧ out.bottom = crop.bottom) ∧
      (crop.width.toNat * bh < crop.height.toNat * bw →
        out.left = crop.left ∧ out.right = crop.right) ∧
      aspectWithinRounding out.width.toNat out.height.toNat bw bh ∧
      (out.left = crop.left + (((crop.width - out.width).toNat / 2 : Nat) : Int) ∧
        out.right = crop.right - (((crop.width - out.width).toNat -
          (crop.width - out.width).toNat / 2 : Nat) : Int)) ∧
      (out.top = crop.top + (((crop.height - out.height).toNat / 2 : Nat) : Int) ∧
        out.bottom = crop.bottom - (((crop.height - out.height).toNat -
          (crop.height - out.height).toNat / 2 : Nat) : Int)) := by
  simp only [Rect.width, Rect.height] at h0w h0h hW hH ⊢
  have hWU : (crop.right - crop.left).toNat < U32 :=
    lt_of_le_of_lt (Nat.le_mul_of_pos_right _ hbh) hW
  have hHU : (crop.bottom - crop.top).toNat < U32 :=
    lt_of_le_of_lt (Nat.le_mul_of_pos_right _ hbw) hH
  have e1 : u32ofInt crop.width = (crop.right - crop.left).toNat := by
    refine u32ofInt_eq _ h0w ?_
    show crop.right - crop.left < (U32 : Int)
    omega
  have e2 : u32ofInt crop.height = (crop.bottom - crop.top).toNat := by
    refine u32ofInt_eq _ h0h ?_
    show crop.bottom - crop.top < (U32 : Int)
    omega
  have ep1 : ((crop.right - crop.left).toNat * bh) % U32 = (crop.right - crop.left).toNat * bh := Nat.mod_eq_of_lt hW
  have ep2 : ((crop.bottom - crop.top).toNat * bw) % U32 = (crop.bottom - crop.top).toNat * bw := Nat.mod_eq_of_lt hH
  rcases Nat.lt_trichotomy ((crop.right - crop.left).toNat * bh) ((crop.bottom - crop.top).toNat * bw) with hlt | heq | hgt
  · -- crop too tall: shrink the height
    obtain ⟨hlb, hub⟩ := div_mul_sandwich ((crop.right - crop.left).toNat * bh) bw hbw
    have hdivlt : (crop.right - crop.left).toNat * bh / bw < (crop.bottom - crop.top).toNat :=
      (Nat.div_lt_iff_lt_mul hbw).2 hlt
    have hout : scaleDownCrop crop bw bh =
        { crop with
            top := crop.top + ((((crop.bottom - crop.top).toNat - (crop.right - crop.left).toNat * bh / bw) / 2 : Nat) : Int),
            bottom := crop.bottom - ((((crop.bottom - crop.top).toNat - (crop.right - crop.left).toNat * bh / bw : Nat) : Int) -
              ((((crop.bottom - crop.top).toNat - (crop.right - crop.left).toNat * bh / bw) / 2 : Nat) : Int)) } := by
      unfold scaleDownCrop
      simp only [e1, e2, ep1, ep2]
      rw [if_neg (show ¬ ((crop.right - crop.left).toNat * bh > (crop.bottom - crop.top).toNat * bw) by omega),
        if_pos hlt, if_neg (Nat.lt_irrefl (crop.right - crop.left).toNat), if_pos hdivlt]
    generalize hD : (crop.right - crop.left).toNat * bh / bw = D at hout hdivlt hlb hub
    refine ⟨_, hout, ?_, ?_, ?_, ?_, ?_, ?_, ?_⟩
    · dsimp only
      refine ⟨le_refl _, le_refl _, ?_, ?_⟩ <;> omega
    · intro h; omega
    · intro h; omega
    · intro _; dsimp only; exact ⟨rfl, rfl⟩
    · have hwt : (({ crop with
            top := crop.top + ((((crop.bottom - crop.top).toNat - D) / 2 : Nat) : Int),
            bottom := crop.bottom - ((((crop.bottom - crop.top).toNat - D : Nat) : Int) -
              ((((crop.bottom - crop.top).toNat - D) / 2 : Nat) : Int)) }).right - ({ crop with
            top := crop.top + ((((crop.bottom - crop.top).toNat - D) / 2 : Nat) : Int),
            bottom := crop.bottom - ((((crop.bottom - crop.top).toNat - D : Nat) : Int) -
              ((((crop.bottom - crop.top).toNat - D) / 2 : Nat) : Int)) }).left).toNat = (crop.right - crop.left).toNat := rfl
      have hht : (({ crop with
            top := crop.top + ((((crop.bottom - crop.top).toNat - D) / 2 : Nat) : Int),
            bottom := crop.bottom - ((((crop.bottom - crop.top).toNat - D : Nat) : Int) -
              ((((crop.bottom - crop.top).toNat - D) / 2 : Nat) : Int)) }).bottom - ({ crop with
            top := crop.top + ((((crop.bottom - crop.top).toNat - D) / 2 : Nat) : Int),
            bottom := crop.bottom - ((((crop.bottom - crop.top).toNat - D : Nat) : Int) -
              ((((crop.bottom - crop.top).toNat - D) / 2 : Nat) : Int)) }).top).toNat = D := by
        dsimp only
        omega
      rw [hwt, hht]
      exact Or.inr ⟨hlb, hub⟩
    · dsimp only [Rect.width, Rect.height]
      constructor <;> omega
    · dsimp only [Rect.width, Rect.height]
      constructor <;> omega
  · -- aspect already matches: no change
    have hout : scaleDownCrop crop bw bh = crop := by
      unfold scaleDownCrop
      simp only [e1, e2, ep1, ep2]
      rw [if_neg (show ¬ ((crop.right - crop.left).toNat * bh > (crop.bottom - crop.top).toNat * bw) by omega),
        if_neg (show ¬ ((crop.right - crop.left).toNat * bh < (crop.bottom - crop.top).toNat * bw) by omega),
        if_neg (Nat.lt_irrefl (crop.right - crop.left).toNat), if_neg (Nat.lt_irrefl (crop.bottom - crop.top).toNat)]
    refine ⟨crop, hout, ⟨le_refl _, le_refl _, le_refl _, le_refl _⟩,
      fun _ => rfl, ?_, ?_, ?_, ?_, ?_⟩
    · intro h; omega
    · intro h; omega
    · exact Or.inl ⟨le_of_eq heq, by omega⟩
    · dsimp only [Rect.width]
      constructor <;> omega
    · dsimp only [Rect.height]
      constructor <;> omega
  · -- crop too wide: shrink the width
    obtain ⟨hlb, hub⟩ := div_mul_sandwich ((crop.bottom - crop.top).toNat * bw) bh hbh
    have hdivlt : (crop.bottom - crop.top).toNat * bw / bh < (crop.right - crop.left).toNat :=
      (Nat.div_lt_iff_lt_mul hbh).2 hgt
    have hout : scaleDownCrop crop bw bh =
        { crop with
            left := crop.left + ((((crop.right - crop.left).toNat - (crop.bottom - crop.top).toNat * bw / bh) / 2 : Nat) : Int),
            right := crop.right - ((((crop.right - crop.left).toNat - (crop.bottom - crop.top).toNat * bw / bh : Nat) : Int) -
              ((((crop.right - crop.left).toNat - (crop.bottom - crop.top).toNat * bw / bh) / 2 : Nat) : Int)) } := by
      unfold scaleDownCrop
      simp only [e1, e2, ep1, ep2]
      rw [if_pos (show (crop.right - crop.left).toNat * bh > (crop.bottom - crop.top).toNat * bw from hgt),
        if_neg (show ¬ ((crop.right - crop.left).toNat * bh < (crop.bottom - crop.top).toNat * bw) by omega),
        if_pos hdivlt]
    generalize hD : (crop.bottom - crop.top).toNat * bw / bh = D at hout hdivlt hlb hub
    refine ⟨_, hout, ?_, ?_, ?_, ?_, ?_, ?_, ?_⟩
    · dsimp only
      refine ⟨?_, ?_, le_refl _, le_refl _⟩ <;> omega
    · intro h; omega
    · intro _; dsimp only; exact ⟨rfl, rfl⟩
    · intro h; omega
    · have hht : (({ crop with
            left := crop.left + ((((crop.right - crop.left).toNat - D) / 2 : Nat) : Int),
            right := crop.right - ((((crop.right - crop.left).toNat - D : Nat) : Int) -
              ((((crop.right - crop.left).toNat - D) / 2 : Nat) : Int)) }).bottom - ({ crop with
            left := crop.left + ((((crop.right - crop.left).toNat - D) / 2 : Nat) : Int),
            right := crop.right - ((((crop.right - crop.left).toNat - D : Nat) : Int) -
              ((((crop.right - crop.left).toNat - D) / 2 : Nat) : Int)) }).top).toNat = (crop.bottom - crop.top).toNat := rfl
      have hwt : (({ crop with
            left := crop.left + ((((crop.right - crop.left).toNat - D) / 2 : Nat) : Int),
            right := crop.right - ((((crop.right - crop.left).toNat - D : Nat) : Int) -
              ((((crop.right - crop.left).toNat - D) / 2 : Nat) : Int)) }).right - ({ crop with
            left := crop.left + ((((crop.right - crop.left).toNat - D) / 2 : Nat) : Int),
            right := crop.right - ((((crop.right - crop.left).toNat - D : Nat) : Int) -
              ((((crop.right - crop.left).toNat - D) / 2 : Nat) : Int)) }).left).toNat = D := by
        dsimp only
        omega
      rw [hwt, hht]
      exact Or.inl ⟨hlb, hub⟩
    · dsimp only [Rect.width, Rect.height]
      constructor <;> omega
    · dsimp only [Rect.width, Rect.height]
      constructor <;> omega

/-- Witness for C7 on crop (0,0,100,50) with a 50×50 target. -/
theorem scaleDownCrop_spec_w :
    ∃ out, scaleDownCrop ⟨0, 0, 100, 50⟩ 50 50 = out ∧
      ((0 : Int) ≤ out.left ∧ out.right ≤ 100 ∧
        (0 : Int) ≤ out.top ∧ out.bottom ≤ 50) ∧
      ((Rect.width (⟨0, 0, 100, 50⟩ : Rect)).toNat * 50 =
          (Rect.height (⟨0, 0, 100, 50⟩ : Rect)).toNat * 50 →
        out = ⟨0, 0, 100, 50⟩) ∧
      ((Rect.height (⟨0, 0, 100, 50⟩ : Rect)).toNat * 50 <
          (Rect.width (⟨0, 0, 100, 50⟩ : Rect)).toNat * 50 →
        out.top = 0 ∧ out.bottom = 50) ∧
      ((Rect.width (⟨0, 0, 100, 50⟩ : Rect)).toNat * 50 <
          (Rect.height (⟨0, 0, 100, 50⟩ : Rect)).toNat * 50 →
        out.left = 0 ∧ out.right = 100) ∧
      aspectWithinRounding out.width.toNat out.height.toNat 50 50 ∧
      (out.left = 0 + (((Rect.width (⟨0, 0, 100, 50⟩ : Rect) - out.width).toNat / 2 :
          Nat) : Int) ∧
        out.right = 100 - (((Rect.width (⟨0, 0, 100, 50⟩ : Rect) - out.width).toNat -
          (Rect.width (⟨0, 0, 100, 50⟩ : Rect) - out.width).toNat / 2 : Nat) : Int)) ∧
      (out.top = 0 + (((Rect.height (⟨0, 0, 100, 50⟩ : Rect) - out.height).toNat / 2 :
          Nat) : Int) ∧
        out.bottom = 50 - (((Rect.height (⟨0, 0, 100, 50⟩ : Rect) - out.height).toNat -
          (Rect.height (⟨0, 0, 100, 50⟩ : Rect) - out.height).toNat / 2 : Nat) : Int)) :=
  scaleDownCrop_spec ⟨0, 0, 100, 50⟩ 50 50 (by decide) (by decide) (by decide)
    (by decide) (by decide) (by decide)

end BLC
